import Mathlib

/-!
Shallow embedding of the `loggy` Go package (loggy.go): a leveled,
multi-sink logger.  Pure data (levels, records, options) become Lean
structures; each side-effecting function becomes a function returning the
list of sink events it emits.  Machine `int` (Go `LogLevel`) is modelled
as `Int`.  The partial array index in `Log.String` is modelled with
`Option`.
-/

namespace Loggy

/-- Severity constant `Info LogLevel = 4` from loggy.go. -/
def Info : Int := 4

/-- Severity constant `Debug LogLevel = 5` from loggy.go. -/
def Debug : Int := 5

/-- Severity constant `Warnings LogLevel = 3` from loggy.go. -/
def Warnings : Int := 3

/-- Severity constant `Errors LogLevel = 2` from loggy.go. -/
def Errors : Int := 2

/-- Severity constant `Critical LogLevel = 1` from loggy.go. -/
def Critical : Int := 1

/-- Severity constant `StdoutOnly LogLevel = 0` from loggy.go. -/
def StdoutOnly : Int := 0

/-- The Go struct `Log`: a level and a message. -/
structure Log where
  Level : Int
  Msg : String
deriving Repr, DecidableEq

/-- The Go struct `LogOpts` passed to `NewLogger`.  The three lowercase
fields are unexported in Go, so a caller outside the package can only
supply them at their zero value `false`. -/
structure LogOpts where
  toFile : Bool
  toKeybase : Bool
  toStdout : Bool
  OutFile : String
  KBTeam : String
  KBChann : String
  Level : Int
  ProgName : String
  UseStdout : Bool
deriving Repr, DecidableEq

/-- Model of `keybase.Channel` from the external keybase package (only the
fields `NewLogger` assigns). -/
structure Channel where
  TopicName : String
  MembersType : String
  Name : String
deriving Repr, DecidableEq

/-- Constant `keybase.TEAM` of the external keybase package. -/
def kbTEAM : String := "team"

/-- Constant `keybase.USER` of the external keybase package. -/
def kbUSER : String := "impteamnative"

/-- Zero value of `keybase.Channel`. -/
def emptyChannel : Channel := ⟨"", "", ""⟩

/-- The Go struct `Logger`: resolved options plus the keybase channel.
The `*keybase.Keybase` session pointer is external state; the only part of
it the package reads (`LoggedIn`) is passed explicitly to `NewLogger`. -/
structure Logger where
  opts : LogOpts
  team : Channel
deriving Repr, DecidableEq

/-- The name array inside `Log.String` in loggy.go. -/
def levelNames : List String :=
  ["StdoutOnly", "Critical", "Error", "Warning", "Info", "Debug"]

/-- Indexing `levels[msg.Level]` in Go: defined only for `0 ≤ lvl < 6`,
out-of-range access is a runtime panic, modelled as `none`. -/
def levelName (lvl : Int) : Option String :=
  if lvl < 0 then none else levelNames.get? lvl.toNat

/-- The Go method `Log.String`: `"<SeverityName>: <message>"`, undefined
(runtime panic, modelled `none`) for a level outside `[0, 5]`. -/
def logString (m : Log) : Option String :=
  (levelName m.Level).map (fun name => name ++ ": " ++ m.Msg)

/-- One observable side effect of a sink invocation. -/
inductive SinkEvent where
  | console (line : String)
  | fileAppend (path : String) (line : String)
  | remote (text : String)
  | exitProc (code : Int)
deriving Repr, DecidableEq

/-- Whether a sink event is a console line. -/
def isConsoleEvent : SinkEvent → Bool
  | .console _ => true
  | _ => false

/-- Whether a sink event is a file append. -/
def isFileEvent : SinkEvent → Bool
  | .fileAppend _ _ => true
  | _ => false

/-- Whether a sink event is a remote send. -/
def isRemoteEvent : SinkEvent → Bool
  | .remote _ => true
  | _ => false

/-- Environment of one `toFile` invocation: whether `os.OpenFile`
succeeds, and whether `WriteString` on a successfully opened handle
succeeds.  A write on the nil handle left by a failed open always fails
(Go returns `ErrInvalid`). -/
structure FileEnv where
  openOk : Bool
  writeOk : Bool
deriving Repr, DecidableEq

/-- The Go method `Logger.toStdout`: prints `"[<timestamp>] <rendered>"`.
The timestamp is read from the clock, so it is a parameter `ts`. -/
def Logger.toStdout (l : Logger) (ts : String) (m : Log) : Option (List SinkEvent) :=
  (logString m).map (fun s => [SinkEvent.console ("[" ++ ts ++ "] " ++ s)])

/-- The Go method `Logger.toKeybase`: sends
`"[<ProgName>] <tag><rendered>"` where `tag = "@everyone "` when
`msg.Level <= 2`. -/
def Logger.toKeybase (l : Logger) (m : Log) : Option (List SinkEvent) :=
  (logString m).map (fun s =>
    [SinkEvent.remote ("[" ++ l.opts.ProgName ++ "] "
      ++ (if m.Level ≤ 2 then "@everyone " else "") ++ s)])

/-- The Go method `Logger.toFile`.  It renders first, opens the file
(printing a console diagnostic if that fails, without returning), then
attempts the write: on the nil handle of a failed open the write fails,
so the write-failure diagnostic is printed as well; on a good handle the
line is appended unless the write itself fails. -/
def Logger.toFile (l : Logger) (env : FileEnv) (ts : String) (m : Log) :
    Option (List SinkEvent) :=
  (logString m).map (fun s =>
    let output := "[" ++ ts ++ "] " ++ s
    (if env.openOk then [] else [SinkEvent.console "Unable to open logging file"])
    ++ (if env.openOk then
          (if env.writeOk then [SinkEvent.fileAppend l.opts.OutFile (output ++ "\n")]
           else [SinkEvent.console "Error writing output to logging file"])
        else [SinkEvent.console "Error writing output to logging file"]))

/-- A sink the dispatch engine may invoke. -/
inductive Sink where
  | keybase
  | file
  | stdout
deriving Repr, DecidableEq

/-- The Go function `handleLog`: which sink invocations the dispatch
spawns, in source order. -/
def handleLog (l : Logger) (m : Log) : List Sink :=
  if m.Level > l.opts.Level ∧ m.Level ≠ 0 then []
  else if m.Level = 0 then [Sink.stdout]
  else
    (if l.opts.toKeybase then [Sink.keybase] else [])
    ++ (if l.opts.toFile then [Sink.file] else [])
    ++ (if l.opts.toStdout then [Sink.stdout] else [])

/-- Runs one sink invocation in the given environment. -/
def runSink (l : Logger) (env : FileEnv) (ts : String) (m : Log) :
    Sink → Option (List SinkEvent)
  | Sink.keybase => l.toKeybase m
  | Sink.file => l.toFile env ts m
  | Sink.stdout => l.toStdout ts m

/-- Runs a list of sink invocations, concatenating their events. -/
def runAll (l : Logger) (env : FileEnv) (ts : String) (m : Log) :
    List Sink → Option (List SinkEvent)
  | [] => some []
  | s :: rest => do
      let e ← runSink l env ts m s
      let r ← runAll l env ts m rest
      pure (e ++ r)

/-- Full dispatch: the events of every sink invocation `handleLog`
spawns. -/
def dispatchTrace (l : Logger) (env : FileEnv) (ts : String) (m : Log) :
    Option (List SinkEvent) :=
  runAll l env ts m (handleLog l m)

/-- One process-level step a facade entry point performs. -/
inductive ProcEvent where
  | spawnDispatch (record : Log)
  | runDispatch (record : Log) (sinks : List Sink)
  | exited (code : Int)
deriving Repr, DecidableEq

/-- The Go method `Logger.LogInfo`: spawns dispatch of an `Info` record. -/
def Logger.LogInfo (l : Logger) (msg : String) : List ProcEvent :=
  [ProcEvent.spawnDispatch ⟨Info, msg⟩]

/-- The Go method `Logger.LogDebug`. -/
def Logger.LogDebug (l : Logger) (msg : String) : List ProcEvent :=
  [ProcEvent.spawnDispatch ⟨Debug, msg⟩]

/-- The Go method `Logger.LogWarn`. -/
def Logger.LogWarn (l : Logger) (msg : String) : List ProcEvent :=
  [ProcEvent.spawnDispatch ⟨Warnings, msg⟩]

/-- The Go method `Logger.LogError`. -/
def Logger.LogError (l : Logger) (msg : String) : List ProcEvent :=
  [ProcEvent.spawnDispatch ⟨Errors, msg⟩]

/-- The Go method `Logger.LogCritical`: spawns dispatch, does not exit. -/
def Logger.LogCritical (l : Logger) (msg : String) : List ProcEvent :=
  [ProcEvent.spawnDispatch ⟨Critical, msg⟩]

/-- The Go method `Logger.LogPanic`: runs `handleLog` synchronously, then
`os.Exit(-1)`. -/
def Logger.LogPanic (l : Logger) (msg : String) : List ProcEvent :=
  [ProcEvent.runDispatch ⟨Critical, msg⟩ (handleLog l ⟨Critical, msg⟩),
   ProcEvent.exited (-1)]

/-- The Go method `Logger.LogErrorType`: a `Critical` record from an
error value, dispatch spawned, no exit. -/
def Logger.LogErrorType (l : Logger) (e : String) : List ProcEvent :=
  [ProcEvent.spawnDispatch ⟨Critical, e⟩]

/-- The Go method `Logger.Log`. -/
def Logger.Log (l : Logger) (level : Int) (msg : String) : List ProcEvent :=
  [ProcEvent.spawnDispatch ⟨level, msg⟩]

/-- The Go method `Logger.LogMsg`. -/
def Logger.LogMsg (l : Logger) (m : Loggy.Log) : List ProcEvent :=
  [ProcEvent.spawnDispatch m]

/-- Result of `NewLogger`: either a constructed logger, or process exit
(with the console diagnostic printed first and the exit code). -/
inductive NewLoggerResult where
  | ok (l : Logger)
  | exit (diagnostic : String) (code : Int)
deriving Repr, DecidableEq

/-- Tail of `NewLogger` after the keybase block: derive `toFile` from
`OutFile` and `toStdout` from `UseStdout`, then build the logger. -/
def finishLogger (o : LogOpts) (team : Channel) : Logger :=
  let o1 := if o.OutFile ≠ "" then { o with toFile := true } else o
  let o2 := { o1 with toStdout := o1.UseStdout }
  { opts := o2, team := team }

/-- The Go function `NewLogger`.  `loggedIn` is the `LoggedIn` field of
the freshly created external keybase session. -/
def NewLogger (opts : LogOpts) (loggedIn : Bool) : NewLoggerResult :=
  let o1 := if opts.Level = 0 then { opts with Level := 2 } else opts
  if o1.KBTeam ≠ "" then
    let chann : Channel :=
      if o1.KBChann ≠ "" then ⟨o1.KBChann, kbTEAM, o1.KBTeam⟩
      else ⟨"", kbUSER, o1.KBTeam⟩
    let o2 := { o1 with toKeybase := true }
    if loggedIn = false then
      NewLoggerResult.exit "Not logged into keybase, but keybase option set." (-1)
    else
      NewLoggerResult.ok (finishLogger o2 chann)
  else
    NewLoggerResult.ok (finishLogger o1 emptyChannel)

/-- Sample configuration: no sink enabled, threshold 2 (what `NewLogger`
builds from an all-zero options value). -/
def silentLogger : Logger :=
  ⟨⟨false, false, false, "", "", "", 2, "", false⟩, emptyChannel⟩

/-- Sample configuration: every sink enabled, threshold `Debug`. -/
def fanoutLogger : Logger :=
  ⟨⟨true, true, true, "log.txt", "team", "chan", 5, "prog", true⟩, emptyChannel⟩

/-- Sample configuration: file sink only. -/
def fileLogger : Logger :=
  ⟨⟨true, false, false, "out.log", "", "", 5, "", false⟩, emptyChannel⟩

/-- Sample options value requesting the keybase sink. -/
def kbOpts : LogOpts :=
  ⟨false, false, false, "", "kbteam", "", 0, "prog", false⟩

/-- Sample all-zero options value. -/
def zeroOpts : LogOpts :=
  ⟨false, false, false, "", "", "", 0, "", false⟩

/-! ## Helper lemmas -/

/-- Rendering succeeds on every level in the closed set `[0, 5]`. -/
theorem logString_isSome_of_range (m : Log) (h0 : 0 ≤ m.Level) (h5 : m.Level ≤ 5) :
    (logString m).isSome = true := by
  obtain ⟨lvl, s⟩ := m
  dsimp only at h0 h5
  interval_cases lvl <;> rfl

/-- Rendering is undefined outside the closed set `[0, 5]`. -/
theorem logString_none_of_out_of_range (m : Log) (h : m.Level < 0 ∨ 5 < m.Level) :
    logString m = none := by
  obtain ⟨lvl, s⟩ := m
  rcases h with h | h
  all_goals dsimp only at h
  · simp [logString, levelName, if_pos h]
  · have hn : ¬ lvl < (0 : Int) := by omega
    have h6 : levelNames.length ≤ lvl.toNat := by
      simp only [levelNames, List.length]
      omega
    simp [logString, levelName, hn]
    exact h6

/-! ## Theorems -/

/-- C8: the severity constants have the canonical values `StdoutOnly = 0`,
`Critical = 1`, `Errors = 2`, `Warnings = 3`, `Info = 4`, `Debug = 5`, and
for every record whose severity lies in this closed set, rendering yields
`"<SeverityName>: <message>"` with the name drawn from that ordering; in
particular `Info` renders as `"Info"` and `Debug` as `"Debug"`. -/
theorem severity_constants_canonical :
    StdoutOnly = 0 ∧ Critical = 1 ∧ Errors = 2 ∧ Warnings = 3 ∧ Info = 4 ∧ Debug = 5 ∧
    ∀ s : String,
      logString ⟨StdoutOnly, s⟩ = some ("StdoutOnly: " ++ s) ∧
      logString ⟨Critical, s⟩ = some ("Critical: " ++ s) ∧
      logString ⟨Errors, s⟩ = some ("Error: " ++ s) ∧
      logString ⟨Warnings, s⟩ = some ("Warning: " ++ s) ∧
      logString ⟨Info, s⟩ = some ("Info: " ++ s) ∧
      logString ⟨Debug, s⟩ = some ("Debug: " ++ s) := by
  refine ⟨rfl, rfl, rfl, rfl, rfl, rfl, fun s => ⟨?_, ?_, ?_, ?_, ?_, ?_⟩⟩ <;> rfl

/-- C10: rendering a record indexes a fixed six-element name array with the
record's level, so it is total exactly on the closed severity set: for every
level in `[0, 5]` it returns a string (`isSome`), and for any level outside
that range the result is undefined, modelled as `none`. -/
theorem logString_defined_iff_level_in_range :
    (∀ m : Log, 0 ≤ m.Level → m.Level ≤ 5 → (logString m).isSome = true) ∧
    (∀ m : Log, (m.Level < 0 ∨ 5 < m.Level) → logString m = none) :=
  ⟨logString_isSome_of_range, logString_none_of_out_of_range⟩

/-- Witness for C10: a level inside the range renders, the level 6 outside
it does not. -/
theorem logString_defined_iff_level_in_range_witness :
    (logString ⟨3, "x"⟩).isSome = true ∧ logString ⟨6, "x"⟩ = none :=
  ⟨logString_defined_iff_level_in_range.1 ⟨3, "x"⟩ (by norm_num) (by norm_num),
   logString_defined_iff_level_in_range.2 ⟨6, "x"⟩ (Or.inr (by norm_num))⟩

/-- C5: the remote sink sends exactly
`"[<programName>] <tag><SeverityName>: <message>"`, where the urgency tag
`"@everyone "` is prepended exactly when the record's severity is at most
`Errors = 2`: present for `Critical` and `Errors` (and the sentinel `0`),
absent for `Warnings`, `Info` and `Debug`, and absent for every record of
severity above 2 that renders at all. -/
theorem keybase_message_and_urgency_tag (l : Logger) (s : String) :
    l.toKeybase ⟨StdoutOnly, s⟩
      = some [SinkEvent.remote ("[" ++ l.opts.ProgName ++ "] @everyone StdoutOnly: " ++ s)] ∧
    l.toKeybase ⟨Critical, s⟩
      = some [SinkEvent.remote ("[" ++ l.opts.ProgName ++ "] @everyone Critical: " ++ s)] ∧
    l.toKeybase ⟨Errors, s⟩
      = some [SinkEvent.remote ("[" ++ l.opts.ProgName ++ "] @everyone Error: " ++ s)] ∧
    l.toKeybase ⟨Warnings, s⟩
      = some [SinkEvent.remote ("[" ++ l.opts.ProgName ++ "] Warning: " ++ s)] ∧
    l.toKeybase ⟨Info, s⟩
      = some [SinkEvent.remote ("[" ++ l.opts.ProgName ++ "] Info: " ++ s)] ∧
    l.toKeybase ⟨Debug, s⟩
      = some [SinkEvent.remote ("[" ++ l.opts.ProgName ++ "] Debug: " ++ s)] ∧
    (∀ (m : Log) (t : String), m.Level ≤ 2 → logString m = some t →
      l.toKeybase m = some [SinkEvent.remote ("[" ++ l.opts.ProgName ++ "] @everyone " ++ t)]) ∧
    (∀ (m : Log) (t : String), 2 < m.Level → logString m = some t →
      l.toKeybase m = some [SinkEvent.remote ("[" ++ l.opts.ProgName ++ "] " ++ t)]) := by
  refine ⟨?_, ?_, ?_, ?_, ?_, ?_, ?_, ?_⟩
  · simp only [Logger.toKeybase, logString, levelName, levelNames, StdoutOnly]
    norm_num
    simp only [String.append_assoc]
    rfl
  · simp only [Logger.toKeybase, logString, levelName, levelNames, Critical]
    norm_num
    simp only [String.append_assoc]
    rfl
  · simp only [Logger.toKeybase, logString, levelName, levelNames, Errors]
    norm_num
    simp only [String.append_assoc]
    rfl
  · simp only [Logger.toKeybase, logString, levelName, levelNames, Warnings]
    norm_num
    simp only [String.append_assoc]
    rfl
  · simp only [Logger.toKeybase, logString, levelName, levelNames, Info]
    norm_num
    simp only [String.append_assoc]
    rfl
  · simp only [Logger.toKeybase, logString, levelName, levelNames, Debug]
    norm_num
    simp only [String.append_assoc]
    rfl
  · intro m t h ht
    simp only [Logger.toKeybase, ht, Option.map_some]
    rw [if_pos h]
    simp [String.append_assoc]
  · intro m t h ht
    simp only [Logger.toKeybase, ht, Option.map_some]
    rw [if_neg (by omega)]
    simp [String.append_assoc]

/-- Counterexample to C1: with every sink disabled (an all-zero options
value gives exactly this configuration), a `Critical` record below the
default threshold 2 is not suppressed, yet dispatch invokes no sink — so
"no sink side effects iff suppressed" fails as an equivalence. -/
theorem suppression_iff_no_output_counterexample :
    ¬ (handleLog silentLogger ⟨Critical, "x"⟩ = []
        ↔ ((Critical : Int) > silentLogger.opts.Level ∧ (Critical : Int) ≠ 0)) := by
  decide

/-- C1 amended: a suppressed record (severity strictly above the threshold
and non-zero) produces no sink invocation; a non-suppressed record with
non-zero severity is delivered to exactly the sinks whose enabled flag is
true — hence dispatch produces no sink side effects iff the record is
suppressed or every sink is disabled. -/
theorem dispatch_suppression_amended (l : Logger) (m : Log) :
    ((m.Level > l.opts.Level ∧ m.Level ≠ 0) → handleLog l m = []) ∧
    (m.Level ≠ 0 → ¬(m.Level > l.opts.Level) →
      ((Sink.keybase ∈ handleLog l m ↔ l.opts.toKeybase = true) ∧
       (Sink.file ∈ handleLog l m ↔ l.opts.toFile = true) ∧
       (Sink.stdout ∈ handleLog l m ↔ l.opts.toStdout = true) ∧
       (handleLog l m = []
          ↔ l.opts.toKeybase = false ∧ l.opts.toFile = false ∧ l.opts.toStdout = false))) := by
  constructor
  · intro h
    simp [handleLog, if_pos h]
  · intro h0 hns
    have hc : ¬(m.Level > l.opts.Level ∧ m.Level ≠ 0) := fun hh => hns hh.1
    rw [handleLog, if_neg hc, if_neg h0]
    cases hk : l.opts.toKeybase <;> cases hf : l.opts.toFile <;>
      cases hs : l.opts.toStdout <;> simp

/-- Witness for the amended C1: an `Errors`-level record on a
fully-enabled configuration reaches the file sink. -/
theorem dispatch_suppression_amended_witness :
    Sink.file ∈ handleLog fanoutLogger ⟨2, "x"⟩ ↔ fanoutLogger.opts.toFile = true :=
  ((dispatch_suppression_amended fanoutLogger ⟨2, "x"⟩).2 (by decide) (by decide)).2.1

/-- C2: a record with severity 0 (`StdoutOnly`) is written to the console
exactly once and never to the file or remote sink, for every logger
configuration — any threshold and any combination of enabled sinks,
console disabled included. -/
theorem stdoutOnly_routes_to_console_only (l : Logger) (env : FileEnv) (ts s : String) :
    dispatchTrace l env ts ⟨StdoutOnly, s⟩
        = some [SinkEvent.console ("[" ++ ts ++ "] StdoutOnly: " ++ s)] ∧
    ((dispatchTrace l env ts ⟨StdoutOnly, s⟩).getD []).countP isConsoleEvent = 1 ∧
    ((dispatchTrace l env ts ⟨StdoutOnly, s⟩).getD []).countP isFileEvent = 0 ∧
    ((dispatchTrace l env ts ⟨StdoutOnly, s⟩).getD []).countP isRemoteEvent = 0 := by
  have h : dispatchTrace l env ts ⟨StdoutOnly, s⟩
      = some [SinkEvent.console ("[" ++ ts ++ "] StdoutOnly: " ++ s)] := by
    have hsup : ¬((StdoutOnly : Int) > l.opts.Level ∧ (StdoutOnly : Int) ≠ 0) := by
      rintro ⟨-, hz⟩
      exact hz rfl
    simp only [dispatchTrace, handleLog]
    rw [if_neg hsup, if_pos (show StdoutOnly = 0 from rfl)]
    simp only [runAll, runSink, Logger.toStdout, logString, levelName, levelNames, StdoutOnly]
    norm_num
    simp only [String.append_assoc]
    rfl
  exact ⟨h, by rw [h]; rfl, by rw [h]; rfl, by rw [h]; rfl⟩

/-- C3: `LogPanic` builds a `Critical` record, dispatches it synchronously
(the dispatch step precedes the exit step in its trace), then exits the
process with the distinguished non-zero status `-1`; every other
per-severity entry point performs no exit step. -/
theorem logPanic_blocks_then_exits (l : Logger) (msg e : String) :
    l.LogPanic msg
      = [ProcEvent.runDispatch ⟨Critical, msg⟩ (handleLog l ⟨Critical, msg⟩),
         ProcEvent.exited (-1)] ∧
    ((-1 : Int) ≠ 0) ∧
    (∀ c : Int, ProcEvent.exited c ∉ l.LogInfo msg) ∧
    (∀ c : Int, ProcEvent.exited c ∉ l.LogDebug msg) ∧
    (∀ c : Int, ProcEvent.exited c ∉ l.LogWarn msg) ∧
    (∀ c : Int, ProcEvent.exited c ∉ l.LogError msg) ∧
    (∀ c : Int, ProcEvent.exited c ∉ l.LogCritical msg) ∧
    (∀ c : Int, ProcEvent.exited c ∉ l.LogErrorType e) := by
  refine ⟨rfl, by norm_num, ?_, ?_, ?_, ?_, ?_, ?_⟩ <;> intro c <;>
    simp [Logger.LogInfo, Logger.LogDebug, Logger.LogWarn, Logger.LogError,
      Logger.LogCritical, Logger.LogErrorType]

/-- Counterexample to C4: when the file open fails, the sink writes TWO
console diagnostics — the open-failure one and, because the write is then
attempted on the failed handle, the write-failure one — not exactly one. -/
theorem toFile_single_diagnostic_counterexample :
    Logger.toFile fileLogger ⟨false, true⟩ "ts" ⟨Critical, "x"⟩
      = some [SinkEvent.console "Unable to open logging file",
              SinkEvent.console "Error writing output to logging file"] ∧
    ¬ (((Logger.toFile fileLogger ⟨false, true⟩ "ts" ⟨Critical, "x"⟩).getD []).countP
        isConsoleEvent = 1) := by
  refine ⟨rfl, by decide⟩

/-- C4 amended: if opening the configured file fails, the fallback
diagnostic "Unable to open logging file" is written to the console and
nothing is written to the file; but since the invocation then attempts the
write on the failed handle, a second console diagnostic
"Error writing output to logging file" follows in the same invocation. -/
theorem toFile_open_failure_two_diagnostics (l : Logger) (w : Bool) (ts s : String)
    (lvl : Int) (h0 : 0 ≤ lvl) (h5 : lvl ≤ 5) :
    Logger.toFile l ⟨false, w⟩ ts ⟨lvl, s⟩
      = some [SinkEvent.console "Unable to open logging file",
              SinkEvent.console "Error writing output to logging file"] := by
  obtain ⟨t, ht⟩ := Option.isSome_iff_exists.mp
    (logString_isSome_of_range ⟨lvl, s⟩ h0 h5)
  simp [Logger.toFile, ht]

/-- Witness for the amended C4: a `Warnings` record on the file logger,
open failing. -/
theorem toFile_open_failure_two_diagnostics_witness :
    Logger.toFile fileLogger ⟨false, false⟩ "ts" ⟨3, "y"⟩
      = some [SinkEvent.console "Unable to open logging file",
              SinkEvent.console "Error writing output to logging file"] :=
  toFile_open_failure_two_diagnostics fileLogger false "ts" "y" 3 (by norm_num) (by norm_num)

/-- C6: for every options value passed to the constructor, when
construction succeeds the logger's threshold is `Errors = 2` if the given
threshold was the zero value, and the given value otherwise. -/
theorem newLogger_threshold_default (opts : LogOpts) (loggedIn : Bool) (l : Logger)
    (h : NewLogger opts loggedIn = NewLoggerResult.ok l) :
    l.opts.Level = if opts.Level = 0 then 2 else opts.Level := by
  by_cases hL : opts.Level = 0 <;>
  by_cases hT : opts.KBTeam = "" <;>
  by_cases hC : opts.KBChann = "" <;>
  by_cases hO : opts.OutFile = "" <;>
  cases loggedIn <;>
  simp_all [NewLogger, finishLogger] <;>
  (try subst h) <;>
  simp_all

/-- Witness for C6: the all-zero options value yields threshold 2. -/
theorem newLogger_threshold_default_witness :
    silentLogger.opts.Level = if zeroOpts.Level = 0 then 2 else zeroOpts.Level :=
  newLogger_threshold_default zeroOpts true silentLogger rfl

/-- C7: in every constructed configuration the file flag holds iff the
output path is non-empty, the remote flag holds iff a team is configured,
and the console flag equals the caller's `UseStdout`; when a team is
configured and the session is not authenticated, construction exits the
process with the non-zero status `-1` (no logger is produced).  The two
`false` hypotheses state that the Go fields `toFile`/`toKeybase` are
unexported, hence at their zero value in any caller-supplied options. -/
theorem newLogger_sink_flags (opts : LogOpts) (loggedIn : Bool)
    (hf : opts.toFile = false) (hk : opts.toKeybase = false) :
    (∀ l, NewLogger opts loggedIn = NewLoggerResult.ok l →
        ((l.opts.toFile = true ↔ opts.OutFile ≠ "") ∧
         (l.opts.toKeybase = true ↔ opts.KBTeam ≠ "") ∧
         l.opts.toStdout = opts.UseStdout)) ∧
    (opts.KBTeam ≠ "" → loggedIn = false →
        NewLogger opts loggedIn
          = NewLoggerResult.exit "Not logged into keybase, but keybase option set." (-1)
        ∧ (-1 : Int) ≠ 0) := by
  constructor
  · intro l h
    by_cases hL : opts.Level = 0 <;>
    by_cases hT : opts.KBTeam = "" <;>
    by_cases hC : opts.KBChann = "" <;>
    by_cases hO : opts.OutFile = "" <;>
    cases loggedIn <;>
    simp_all [NewLogger, finishLogger] <;>
    (try subst h) <;>
    simp_all
  · intro hT hIn
    subst hIn
    refine ⟨?_, by norm_num⟩
    by_cases hL : opts.Level = 0 <;> simp_all [NewLogger]

/-- Witness for C7: keybase requested while not logged in exits with -1. -/
theorem newLogger_sink_flags_witness :
    NewLogger kbOpts false
      = NewLoggerResult.exit "Not logged into keybase, but keybase option set." (-1)
    ∧ (-1 : Int) ≠ 0 :=
  (newLogger_sink_flags kbOpts false rfl rfl).2 (by decide) rfl

/-- C9: in the model, a process exit occurs at exactly two call sites: the
`LogPanic` fatal path and the constructor's failed-authentication path.
`LogInfo`, `LogDebug`, `LogWarn`, `LogError`, `LogCritical`,
`LogErrorType`, `Log` and `LogMsg` perform no exit step, a constructor
exit implies a configured team with an unauthenticated session (code
`-1`, non-zero), and no sink invocation — in particular no failing file
open or write — ever emits an exit event. -/
theorem process_exit_two_call_sites (l : Logger) (msg e : String) (lvl : Int) (m : Log)
    (env : FileEnv) (ts : String) (opts : LogOpts) (loggedIn : Bool) :
    (∀ c : Int, ProcEvent.exited c ∉ l.LogInfo msg) ∧
    (∀ c : Int, ProcEvent.exited c ∉ l.LogDebug msg) ∧
    (∀ c : Int, ProcEvent.exited c ∉ l.LogWarn msg) ∧
    (∀ c : Int, ProcEvent.exited c ∉ l.LogError msg) ∧
    (∀ c : Int, ProcEvent.exited c ∉ l.LogCritical msg) ∧
    (∀ c : Int, ProcEvent.exited c ∉ l.LogErrorType e) ∧
    (∀ c : Int, ProcEvent.exited c ∉ l.Log lvl msg) ∧
    (∀ c : Int, ProcEvent.exited c ∉ l.LogMsg m) ∧
    ProcEvent.exited (-1) ∈ l.LogPanic msg ∧
    (∀ d c, NewLogger opts loggedIn = NewLoggerResult.exit d c →
        opts.KBTeam ≠ "" ∧ loggedIn = false ∧ c = -1 ∧ c ≠ 0) ∧
    (∀ tr, Logger.toFile l env ts m = some tr → ∀ c : Int, SinkEvent.exitProc c ∉ tr) ∧
    (∀ tr, Logger.toKeybase l m = some tr → ∀ c : Int, SinkEvent.exitProc c ∉ tr) ∧
    (∀ tr, Logger.toStdout l ts m = some tr → ∀ c : Int, SinkEvent.exitProc c ∉ tr) := by
  refine ⟨?_, ?_, ?_, ?_, ?_, ?_, ?_, ?_, ?_, ?_, ?_, ?_, ?_⟩
  case _ => intro c; simp [Logger.LogInfo]
  case _ => intro c; simp [Logger.LogDebug]
  case _ => intro c; simp [Logger.LogWarn]
  case _ => intro c; simp [Logger.LogError]
  case _ => intro c; simp [Logger.LogCritical]
  case _ => intro c; simp [Logger.LogErrorType]
  case _ => intro c; simp [Logger.Log]
  case _ => intro c; simp [Logger.LogMsg]
  case _ => simp [Logger.LogPanic]
  case _ =>
    intro d c h
    by_cases hL : opts.Level = 0 <;>
    by_cases hT : opts.KBTeam = "" <;>
    cases loggedIn <;>
    simp_all [NewLogger, finishLogger] <;>
    omega
  case _ =>
    intro tr htr c
    cases hls : logString m with
    | none => simp [Logger.toFile, hls] at htr
    | some t =>
      rw [Logger.toFile, hls, Option.map_some', Option.some.injEq] at htr
      subst htr
      obtain ⟨openOk, writeOk⟩ := env
      cases openOk <;> cases writeOk <;> simp
  case _ =>
    intro tr htr c
    cases hls : logString m with
    | none => simp [Logger.toKeybase, hls] at htr
    | some t =>
      rw [Logger.toKeybase, hls, Option.map_some', Option.some.injEq] at htr
      subst htr
      simp
  case _ =>
    intro tr htr c
    cases hls : logString m with
    | none => simp [Logger.toStdout, hls] at htr
    | some t =>
      rw [Logger.toStdout, hls, Option.map_some', Option.some.injEq] at htr
      subst htr
      simp

/-- Witness for C9: the constructor exit at a concrete unauthenticated
keybase configuration. -/
theorem process_exit_two_call_sites_witness :
    kbOpts.KBTeam ≠ "" ∧ false = false ∧ (-1 : Int) = -1 ∧ (-1 : Int) ≠ 0 :=
  (process_exit_two_call_sites silentLogger "m" "e" 0 ⟨0, ""⟩ ⟨true, true⟩ "ts"
      kbOpts false).2.2.2.2.2.2.2.2.2.1
    "Not logged into keybase, but keybase option set." (-1) rfl

end Loggy
